import Mathlib

/-!
Verification of the record-normalization core of `nps_parks_collector.py`.

The embedding models Python/JSON values as an inductive type `JsonVal`,
Python exceptions as an explicit `Except PyError` result, and the pandas
DataFrame produced by `process_parks_data` as a `DataFrame` structure whose
columns are inferred from the record dictionaries in order of first
appearance (the behaviour of `pd.DataFrame(list_of_dicts)`).
-/

namespace NPS

/-- A JSON value as it appears after `response.json()` in Python:
`None`, booleans, numbers, strings, arrays, and objects (dicts). -/
inductive JsonVal where
  | null : JsonVal
  | bool (b : Bool) : JsonVal
  | num (n : Int) : JsonVal
  | str (s : String) : JsonVal
  | arr (elems : List JsonVal) : JsonVal
  | obj (fields : List (String × JsonVal)) : JsonVal
deriving Repr

/-- The Python exceptions that the modelled code can raise. -/
inductive PyError where
  | attributeError : PyError
  | typeError : PyError
deriving Repr, DecidableEq

/-- `d.get(key, dflt)` on a Python dict `d`: the stored value when the key is
present (even when that value is `None`), else the supplied default. -/
def pyGet (fields : List (String × JsonVal)) (key : String) (dflt : JsonVal) : JsonVal :=
  match fields.lookup key with
  | some v => v
  | none => dflt

/-- `park.get(key, dflt)` on an arbitrary Python value: dicts have a `get`
method; every other JSON-derived value (str, list, int, bool, None) raises
`AttributeError`. -/
def pyDictGet : JsonVal → String → JsonVal → Except PyError JsonVal
  | JsonVal.obj fields, key, dflt => Except.ok (pyGet fields key dflt)
  | _, _, _ => Except.error PyError.attributeError

/-- The five output column names, in the order the dict literal in
`process_parks_data` lists them. -/
def outputColumns : List String :=
  ["Full Name", "States", "Description", "Acres", "Designation"]

/-- The five source field keys, in the same order. -/
def sourceKeys : List String :=
  ["fullName", "states", "description", "acres", "designation"]

/-- The `park_info` dict built for a park that is a mapping `fields`:
each entry is `park.get(sourceKey, 'N/A')`. -/
def parkInfoFields (fields : List (String × JsonVal)) : List (String × JsonVal) :=
  [("Full Name", pyGet fields "fullName" (JsonVal.str "N/A")),
   ("States", pyGet fields "states" (JsonVal.str "N/A")),
   ("Description", pyGet fields "description" (JsonVal.str "N/A")),
   ("Acres", pyGet fields "acres" (JsonVal.str "N/A")),
   ("Designation", pyGet fields "designation" (JsonVal.str "N/A"))]

/-- The try-body of the loop in `process_parks_data`: build the `park_info`
dict from five `park.get` calls; the first call that raises aborts the body. -/
def buildParkInfo (park : JsonVal) : Except PyError (List (String × JsonVal)) := do
  let v1 ← pyDictGet park "fullName" (JsonVal.str "N/A")
  let v2 ← pyDictGet park "states" (JsonVal.str "N/A")
  let v3 ← pyDictGet park "description" (JsonVal.str "N/A")
  let v4 ← pyDictGet park "acres" (JsonVal.str "N/A")
  let v5 ← pyDictGet park "designation" (JsonVal.str "N/A")
  pure [("Full Name", v1), ("States", v2), ("Description", v3),
        ("Acres", v4), ("Designation", v5)]

/-- The except-handler of the loop: it prints a warning whose f-string
evaluates `park.get('fullName', 'Unknown')`; that very call raises again
when `park` is not a mapping, and the new exception propagates. -/
def handleParkError (park : JsonVal) : Except PyError Unit := do
  let _ ← pyDictGet park "fullName" (JsonVal.str "Unknown")
  pure ()

/-- The `for park in parks` loop of `process_parks_data`, accumulating the
`processed_data` list.  A body success appends the dict; a body failure runs
the except-handler and continues only if the handler itself does not raise. -/
def processParksLoop : List JsonVal → Except PyError (List (List (String × JsonVal)))
  | [] => Except.ok []
  | park :: rest =>
    match buildParkInfo park with
    | Except.ok info =>
      match processParksLoop rest with
      | Except.ok tail => Except.ok (info :: tail)
      | Except.error e => Except.error e
    | Except.error _ =>
      match handleParkError park with
      | Except.ok _ => processParksLoop rest
      | Except.error e => Except.error e

/-- The rectangular table produced by `pd.DataFrame(processed_data)`:
an ordered column list and an ordered list of rows. -/
structure DataFrame where
  columns : List String
  rows : List (List JsonVal)
deriving Repr

/-- Accumulate column names in order of first appearance, as pandas does
when building a DataFrame from a list of dicts. -/
def addCols (acc : List String) (keys : List String) : List String :=
  keys.foldl (fun a k => if a.contains k then a else a ++ [k]) acc

/-- The column list pandas infers from a list of record dicts. -/
def dfColumnsOf (records : List (List (String × JsonVal))) : List String :=
  records.foldl (fun acc rec => addCols acc (rec.map Prod.fst)) []

/-- Value of a record dict at a column; pandas fills NaN (modelled as `null`)
when a record lacks the column, which never happens here because every
`park_info` dict has the same five keys. -/
def dfLookup (rec : List (String × JsonVal)) (col : String) : JsonVal :=
  match rec with
  | [] => JsonVal.null
  | (k, v) :: rest => if k = col then v else dfLookup rest col

/-- `pd.DataFrame(records)` for a list of record dicts. -/
def mkDataFrame (records : List (List (String × JsonVal))) : DataFrame :=
  { columns := dfColumnsOf records,
    rows := records.map (fun rec => (dfColumnsOf records).map (fun c => dfLookup rec c)) }

/-- `process_parks_data(parks)`: run the loop, then build the DataFrame.
An exception escaping the loop escapes the function (it has no outer
try/except). -/
def process_parks_data (parks : List JsonVal) : Except PyError DataFrame :=
  match processParksLoop parks with
  | Except.ok records => Except.ok (mkDataFrame records)
  | Except.error e => Except.error e

/-- `df.empty` in pandas: true when either axis has length zero. -/
def DataFrame.isEmptyDf (df : DataFrame) : Bool :=
  df.rows.isEmpty || df.columns.isEmpty

/-- An HTTP response as seen by `fetch_parks_data`: a status code and the
parsed JSON body returned by `response.json()`. -/
structure HttpResponse where
  status : Nat
  body : JsonVal
deriving Repr

/-- Outcome of the `requests.get` call: either a response arrived, or a
transport-level `RequestException` was raised. -/
inductive FetchOutcome where
  | response (r : HttpResponse) : FetchOutcome
  | transportError : FetchOutcome
deriving Repr

/-- `fetch_parks_data`: on status 200 it returns `data.get('data', [])`
(which raises `AttributeError` when the body is not a dict — that raise is
not caught, since the except clause only catches `RequestException`); on any
other status, and on a transport error, it returns `None`. -/
def fetch_parks_data : FetchOutcome → Except PyError (Option JsonVal)
  | FetchOutcome.transportError => Except.ok none
  | FetchOutcome.response r =>
    if r.status = 200 then
      match r.body with
      | JsonVal.obj fields => Except.ok (some (pyGet fields "data" (JsonVal.arr [])))
      | _ => Except.error PyError.attributeError
    else
      Except.ok none

/-- Python `len` on a JSON-derived value: defined for lists, strings and
dicts; `TypeError` otherwise. -/
def pyLen : JsonVal → Except PyError Nat
  | JsonVal.arr elems => Except.ok elems.length
  | JsonVal.str s => Except.ok s.length
  | JsonVal.obj fields => Except.ok fields.length
  | _ => Except.error PyError.typeError

/-- Python iteration (`for park in parks`) over a JSON-derived value:
lists yield their elements, strings their characters, dicts their keys;
`TypeError` otherwise. -/
def pyIter : JsonVal → Except PyError (List JsonVal)
  | JsonVal.arr elems => Except.ok elems
  | JsonVal.str s => Except.ok (s.toList.map (fun c => JsonVal.str c.toString))
  | JsonVal.obj fields => Except.ok (fields.map (fun kv => JsonVal.str kv.fst))
  | _ => Except.error PyError.typeError

/-- The externally visible calls `main` can make, in order. -/
inductive Step where
  | authCall : Step
  | fetchCall : Step
  | writeCall : Step
deriving Repr, DecidableEq

/-- How a run of `main` ends. -/
inductive MainExit where
  | configErrorApiKey : MainExit
  | configErrorSheetUrl : MainExit
  | authFailed : MainExit
  | noData : MainExit
  | emptyDataFrame : MainExit
  | finished (success : Bool) : MainExit
  | raised (e : PyError) : MainExit
deriving Repr, DecidableEq

/-- The behaviour of the external collaborators during one run. -/
structure World where
  authOk : Bool
  fetchOutcome : FetchOutcome
  writeOk : Bool

/-- The placeholder sentinel for the API key configuration variable. -/
def apiKeyPlaceholder : String := "YOUR_API_KEY_HERE"

/-- The placeholder sentinel for the sheet URL configuration variable. -/
def sheetUrlPlaceholder : String := "YOUR_SHEET_URL_HERE"

/-- `main`: validate both configuration values against their placeholders
(returning early, before any auth or network call, if either still holds its
placeholder), then authenticate, fetch, guard `parks_data is None or
len(parks_data) == 0`, process, guard `df.empty`, and finally write.
The first component records which external calls were made, in order. -/
def main (apiKey sheetUrl : String) (w : World) : List Step × MainExit :=
  if apiKey = apiKeyPlaceholder then
    ([], MainExit.configErrorApiKey)
  else if sheetUrl = sheetUrlPlaceholder then
    ([], MainExit.configErrorSheetUrl)
  else if !w.authOk then
    ([Step.authCall], MainExit.authFailed)
  else
    match fetch_parks_data w.fetchOutcome with
    | Except.error e => ([Step.authCall, Step.fetchCall], MainExit.raised e)
    | Except.ok none => ([Step.authCall, Step.fetchCall], MainExit.noData)
    | Except.ok (some parksData) =>
      match pyLen parksData with
      | Except.error e => ([Step.authCall, Step.fetchCall], MainExit.raised e)
      | Except.ok n =>
        if n = 0 then
          ([Step.authCall, Step.fetchCall], MainExit.noData)
        else
          match pyIter parksData with
          | Except.error e => ([Step.authCall, Step.fetchCall], MainExit.raised e)
          | Except.ok parks =>
            match process_parks_data parks with
            | Except.error e => ([Step.authCall, Step.fetchCall], MainExit.raised e)
            | Except.ok df =>
              if df.isEmptyDf then
                ([Step.authCall, Step.fetchCall], MainExit.emptyDataFrame)
              else
                ([Step.authCall, Step.fetchCall, Step.writeCall],
                 MainExit.finished w.writeOk)

/-! ### Helper lemmas about the normalization loop -/

/-- On a mapping, the try-body succeeds and yields the `park_info` dict. -/
theorem buildParkInfo_obj (fields : List (String × JsonVal)) :
    buildParkInfo (JsonVal.obj fields) = Except.ok (parkInfoFields fields) := rfl

/-- The try-body succeeds only on mappings, and then yields `park_info`. -/
theorem buildParkInfo_ok {park : JsonVal} {info : List (String × JsonVal)}
    (h : buildParkInfo park = Except.ok info) :
    ∃ fields, park = JsonVal.obj fields ∧ info = parkInfoFields fields := by
  cases park with
  | obj fields =>
    refine ⟨fields, rfl, ?_⟩
    rw [buildParkInfo_obj] at h
    exact (Except.ok.inj h).symm
  | null => cases h
  | bool b => cases h
  | num n => cases h
  | str s => cases h
  | arr elems => cases h

/-- On a non-mapping, the except-handler itself raises `AttributeError`,
because its diagnostic f-string evaluates `park.get('fullName', 'Unknown')`. -/
theorem handleParkError_not_obj {park : JsonVal}
    (h : ∀ fields, park ≠ JsonVal.obj fields) :
    handleParkError park = Except.error PyError.attributeError := by
  cases park with
  | obj fields => exact absurd rfl (h fields)
  | null => rfl
  | bool b => rfl
  | num n => rfl
  | str s => rfl
  | arr elems => rfl

/-- When the loop returns normally, there is one `park_info` dict per input
record, positionally: record `j` (necessarily a mapping) yields dict `j`,
and every dict carries exactly the five output keys in order. -/
theorem processParksLoop_ok (parks : List JsonVal) :
    ∀ infos : List (List (String × JsonVal)),
      processParksLoop parks = Except.ok infos →
      infos.length = parks.length ∧
      (∀ j fields, parks.get? j = some (JsonVal.obj fields) →
        infos.get? j = some (parkInfoFields fields)) ∧
      (∀ rec ∈ infos, rec.map Prod.fst = outputColumns) := by
  induction parks with
  | nil =>
    intro infos h
    rw [processParksLoop] at h
    cases h
    refine ⟨rfl, ?_, ?_⟩ <;> simp
  | cons park rest ih =>
    intro infos h
    rw [processParksLoop] at h
    cases hpark : buildParkInfo park with
    | ok info =>
      rw [hpark] at h
      cases hrest : processParksLoop rest with
      | ok tail =>
        rw [hrest] at h
        cases h
        obtain ⟨hlen, hidx, hkeys⟩ := ih tail hrest
        obtain ⟨fields₀, hp, hi⟩ := buildParkInfo_ok hpark
        subst hp
        subst hi
        refine ⟨by simp [hlen], ?_, ?_⟩
        · intro j fields hj
          cases j with
          | zero =>
            rw [List.get?_cons_zero] at hj
            rw [List.get?_cons_zero]
            cases hj
            rfl
          | succ j =>
            rw [List.get?_cons_succ] at hj
            rw [List.get?_cons_succ]
            exact hidx j fields hj
        · intro rec hrec
          cases hrec with
          | head => rfl
          | tail _ hmem => exact hkeys rec hmem
      | error e =>
        rw [hrest] at h
        cases h
    | error e =>
      rw [hpark] at h
      have hnotobj : ∀ fields, park ≠ JsonVal.obj fields := by
        intro fields heq
        subst heq
        rw [buildParkInfo_obj] at hpark
        cases hpark
      rw [handleParkError_not_obj hnotobj] at h
      cases h

theorem addCols_nil_out : addCols [] outputColumns = outputColumns := by decide

theorem addCols_out_out : addCols outputColumns outputColumns = outputColumns := by decide

/-- Once the column accumulator holds the five output names, further records
with exactly those keys add nothing. -/
theorem foldl_addCols_const (l : List (List (String × JsonVal)))
    (h : ∀ r ∈ l, r.map Prod.fst = outputColumns) :
    l.foldl (fun acc rec => addCols acc (rec.map Prod.fst)) outputColumns = outputColumns := by
  induction l with
  | nil => rfl
  | cons r rest ih =>
    rw [List.foldl_cons, h r (List.mem_cons_self r rest), addCols_out_out]
    exact ih (fun x hx => h x (List.mem_cons_of_mem _ hx))

/-- pandas infers exactly the five output names (in order) from a nonempty
list of record dicts that all carry those keys. -/
theorem dfColumnsOf_eq (l : List (List (String × JsonVal)))
    (h : ∀ r ∈ l, r.map Prod.fst = outputColumns) (hne : l ≠ []) :
    dfColumnsOf l = outputColumns := by
  cases l with
  | nil => exact absurd rfl hne
  | cons r rest =>
    rw [dfColumnsOf, List.foldl_cons, h r (List.mem_cons_self r rest), addCols_nil_out]
    exact foldl_addCols_const rest (fun x hx => h x (List.mem_cons_of_mem _ hx))

/-- Position `i` of a DataFrame row built from the `park_info` dict of a
mapping `fields` holds `fields.get(sourceKeys[i], 'N/A')`. -/
theorem row_get (fields : List (String × JsonVal)) (i : Nat) (key : String)
    (hkey : sourceKeys.get? i = some key) :
    Option.map (fun c => dfLookup (parkInfoFields fields) c) (outputColumns.get? i) =
    some (pyGet fields key (JsonVal.str "N/A")) := by
  rcases i with _ | _ | _ | _ | _ | i
  · simp [sourceKeys] at hkey; subst hkey; rfl
  · simp [sourceKeys] at hkey; subst hkey; rfl
  · simp [sourceKeys] at hkey; subst hkey; rfl
  · simp [sourceKeys] at hkey; subst hkey; rfl
  · simp [sourceKeys] at hkey; subst hkey; rfl
  · simp [sourceKeys] at hkey

/-- A DataFrame result of `process_parks_data` comes from a normal loop run. -/
theorem process_ok_spec (parks : List JsonVal) (df : DataFrame)
    (hok : process_parks_data parks = Except.ok df) :
    ∃ infos, processParksLoop parks = Except.ok infos ∧ df = mkDataFrame infos := by
  rw [process_parks_data] at hok
  cases hl : processParksLoop parks with
  | ok infos =>
    rw [hl] at hok
    exact ⟨infos, rfl, (Except.ok.inj hok).symm⟩
  | error e =>
    rw [hl] at hok
    cases hok

/-- Master lemma: when `process_parks_data` returns a table, the cell in
row `j`, column `i` equals `fields.get(sourceKeys[i], 'N/A')` where `fields`
is the mapping at input position `j`. -/
theorem processed_value (parks : List JsonVal) (df : DataFrame)
    (j i : Nat) (fields : List (String × JsonVal)) (key : String)
    (hok : process_parks_data parks = Except.ok df)
    (hj : parks.get? j = some (JsonVal.obj fields))
    (hkey : sourceKeys.get? i = some key) :
    (df.rows.get? j).bind (fun row => row.get? i) =
    some (pyGet fields key (JsonVal.str "N/A")) := by
  obtain ⟨infos, hl, hdf⟩ := process_ok_spec parks df hok
  obtain ⟨hlen, hidx, hkeys⟩ := processParksLoop_ok parks infos hl
  have hinfoj := hidx j fields hj
  have hne : infos ≠ [] := by
    intro h0
    subst h0
    simp at hinfoj
  have hcols : dfColumnsOf infos = outputColumns := dfColumnsOf_eq infos hkeys hne
  subst hdf
  simp only [mkDataFrame, List.get?_map, hinfoj, Option.map_some', hcols,
    Option.some_bind]
  exact row_get fields i key hkey

/-! ### Claim theorems -/

/-- Claim C1 (code bug): the claim says a structurally malformed record
(e.g. not a mapping) is skipped, a diagnostic is surfaced, nothing is raised
past `process_parks_data`, and `[ {fullName:"A"}, "not-a-record",
{fullName:"B"} ]` yields exactly two rows.  The code instead raises
`AttributeError` out of `process_parks_data` on exactly that input: the
except-handler's diagnostic evaluates `park.get('fullName', 'Unknown')` on
the non-mapping record, raising again while handling, so the whole batch
aborts with no table. -/
theorem c1_malformed_record_aborts_batch :
    process_parks_data
      [JsonVal.obj [("fullName", JsonVal.str "A")],
       JsonVal.str "not-a-record",
       JsonVal.obj [("fullName", JsonVal.str "B")]] =
    Except.error PyError.attributeError := rfl

/-- Claim C2, counterexample: on the empty record list the column list of
the produced table is empty, not the five FieldSpec output names —
`pd.DataFrame([])` infers its columns from the (absent) records. -/
theorem c2_counterexample_empty_header :
    (process_parks_data []).map DataFrame.columns = Except.ok [] ∧
    ([] : List String) ≠ outputColumns := ⟨rfl, by decide⟩

/-- Claim C2 (amended): `process_parks_data` applied to the empty record
list returns a table with zero rows and an empty column list (pandas infers
columns from the record dicts, of which there are none). -/
theorem c2_empty_input_zero_rows_empty_header :
    process_parks_data [] = Except.ok { columns := [], rows := [] } := rfl

/-- Claim C3 (confirmed): in any table produced by `process_parks_data`,
the cell for an input mapping that lacks a given source field key equals the
configured default, the concrete string `"N/A"`. -/
theorem c3_missing_key_yields_default (parks : List JsonVal) (df : DataFrame)
    (j i : Nat) (fields : List (String × JsonVal)) (key : String)
    (hok : process_parks_data parks = Except.ok df)
    (hj : parks.get? j = some (JsonVal.obj fields))
    (hkey : sourceKeys.get? i = some key)
    (hmiss : fields.lookup key = none) :
    (df.rows.get? j).bind (fun row => row.get? i) = some (JsonVal.str "N/A") := by
  rw [processed_value parks df j i fields key hok hj hkey]
  simp [pyGet, hmiss]

/-- Witness for C3: the record `{fullName: "A"}` has no `states` key, and
its row holds `"N/A"` in the States column. -/
theorem c3_witness :
    ((mkDataFrame [parkInfoFields [("fullName", JsonVal.str "A")]]).rows.get? 0).bind
      (fun row => row.get? 1) = some (JsonVal.str "N/A") :=
  c3_missing_key_yields_default [JsonVal.obj [("fullName", JsonVal.str "A")]]
    (mkDataFrame [parkInfoFields [("fullName", JsonVal.str "A")]]) 0 1
    [("fullName", JsonVal.str "A")] "states" rfl rfl rfl rfl

/-- Claim C4 (confirmed): in any table produced by `process_parks_data`,
the cell for an input mapping that contains a given source field key equals
the record's stored value, unchanged. -/
theorem c4_present_key_passes_value (parks : List JsonVal) (df : DataFrame)
    (j i : Nat) (fields : List (String × JsonVal)) (key : String) (v : JsonVal)
    (hok : process_parks_data parks = Except.ok df)
    (hj : parks.get? j = some (JsonVal.obj fields))
    (hkey : sourceKeys.get? i = some key)
    (hpresent : fields.lookup key = some v) :
    (df.rows.get? j).bind (fun row => row.get? i) = some v := by
  rw [processed_value parks df j i fields key hok hj hkey]
  simp [pyGet, hpresent]

/-- Witness for C4: `{fullName: "Yellowstone", states: "WY,MT,ID",
acres: 2219791}` keeps the numeric value 2219791 in the Acres column. -/
theorem c4_witness :
    ((mkDataFrame [parkInfoFields
        [("fullName", JsonVal.str "Yellowstone"),
         ("states", JsonVal.str "WY,MT,ID"),
         ("acres", JsonVal.num 2219791)]]).rows.get? 0).bind
      (fun row => row.get? 3) = some (JsonVal.num 2219791) :=
  c4_present_key_passes_value
    [JsonVal.obj [("fullName", JsonVal.str "Yellowstone"),
                  ("states", JsonVal.str "WY,MT,ID"),
                  ("acres", JsonVal.num 2219791)]]
    (mkDataFrame [parkInfoFields
        [("fullName", JsonVal.str "Yellowstone"),
         ("states", JsonVal.str "WY,MT,ID"),
         ("acres", JsonVal.num 2219791)]]) 0 3
    [("fullName", JsonVal.str "Yellowstone"),
     ("states", JsonVal.str "WY,MT,ID"),
     ("acres", JsonVal.num 2219791)] "acres" (JsonVal.num 2219791) rfl rfl rfl rfl

/-- Claim C5 (code bug): the claim says normalizing `[X, Y, Z]` where only
`Y` fails yields the rows for `X` and `Z` in order.  In the code a record
can only fail to normalize by not being a mapping, and then the
except-handler itself raises `AttributeError` (its diagnostic calls
`park.get` on that record), so the whole call aborts and no rows at all are
produced — shown here for `X = {fullName:"X"}`, `Y = 42`,
`Z = {fullName:"Z"}`. -/
theorem c5_failing_middle_aborts :
    process_parks_data
      [JsonVal.obj [("fullName", JsonVal.str "X")],
       JsonVal.num 42,
       JsonVal.obj [("fullName", JsonVal.str "Z")]] =
    Except.error PyError.attributeError := rfl

/-- Claim C6 (confirmed): whenever `process_parks_data` produces a table,
it has at most as many rows as there were input records. -/
theorem c6_rows_le_input (parks : List JsonVal) (df : DataFrame)
    (hok : process_parks_data parks = Except.ok df) :
    df.rows.length ≤ parks.length := by
  obtain ⟨infos, hl, hdf⟩ := process_ok_spec parks df hok
  obtain ⟨hlen, -, -⟩ := processParksLoop_ok parks infos hl
  subst hdf
  simp [mkDataFrame, hlen]

/-- Witness for C6: a one-record input yields at most one row. -/
theorem c6_witness :
    (mkDataFrame [parkInfoFields [("fullName", JsonVal.str "B")]]).rows.length ≤ 1 :=
  c6_rows_le_input [JsonVal.obj [("fullName", JsonVal.str "B")]] _ rfl

/-- Claim C7, counterexample: it is not true that the column list equals the
five output names regardless of input — the empty input yields an empty
column list. -/
theorem c7_counterexample_not_all_inputs :
    ¬ ∀ (parks : List JsonVal) (df : DataFrame),
        process_parks_data parks = Except.ok df → df.columns = outputColumns := by
  intro h
  have h0 := h [] { columns := [], rows := [] } rfl
  have hne : ([] : List String) ≠ outputColumns := by decide
  exact hne h0

/-- Claim C7 (amended): every row of a table produced by
`process_parks_data` has exactly as many values as there are FieldSpec
entries (five), and whenever the input is nonempty the column list equals
the five output names in order (on empty input it is empty). -/
theorem c7_rectangular (parks : List JsonVal) (df : DataFrame)
    (hok : process_parks_data parks = Except.ok df) :
    (∀ row ∈ df.rows, row.length = outputColumns.length) ∧
    (parks ≠ [] → df.columns = outputColumns) := by
  obtain ⟨infos, hl, hdf⟩ := process_ok_spec parks df hok
  obtain ⟨hlen, -, hkeys⟩ := processParksLoop_ok parks infos hl
  subst hdf
  constructor
  · intro row hrow
    simp [mkDataFrame] at hrow
    obtain ⟨rec, hrec, hroweq⟩ := hrow
    subst hroweq
    have hne : infos ≠ [] := by
      intro h0
      subst h0
      simp at hrec
    rw [List.length_map, dfColumnsOf_eq infos hkeys hne]
  · intro hne
    have hinne : infos ≠ [] := by
      intro h0
      subst h0
      simp at hlen
      exact hne (List.length_eq_zero.mp hlen.symm)
    simp only [mkDataFrame]
    exact dfColumnsOf_eq infos hkeys hinne

/-- Witness for C7: a nonempty input produces the full five-name header. -/
theorem c7_witness :
    (mkDataFrame [parkInfoFields [("fullName", JsonVal.str "C")]]).columns = outputColumns :=
  (c7_rectangular [JsonVal.obj [("fullName", JsonVal.str "C")]] _ rfl).2
    (List.cons_ne_nil _ _)

/-- Claim C8 (confirmed): if either configuration value still holds its
placeholder, `main` performs no auth, fetch or write call and exits with
the corresponding configuration error. -/
theorem c8_placeholder_blocks_run (apiKey sheetUrl : String) (w : World)
    (h : apiKey = apiKeyPlaceholder ∨ sheetUrl = sheetUrlPlaceholder) :
    (main apiKey sheetUrl w).1 = [] ∧
    ((main apiKey sheetUrl w).2 = MainExit.configErrorApiKey ∨
     (main apiKey sheetUrl w).2 = MainExit.configErrorSheetUrl) := by
  by_cases hk : apiKey = apiKeyPlaceholder
  · simp [main, hk]
  · rcases h with h | h
    · exact absurd h hk
    · simp [main, hk, h]

/-- Witness for C8: a placeholder API key makes a concrete run exit early
with no external calls. -/
theorem c8_witness :
    (main apiKeyPlaceholder "https://docs.google.com/spreadsheets/d/x"
        { authOk := true, fetchOutcome := FetchOutcome.transportError, writeOk := true }).1 = [] ∧
    ((main apiKeyPlaceholder "https://docs.google.com/spreadsheets/d/x"
        { authOk := true, fetchOutcome := FetchOutcome.transportError, writeOk := true }).2 =
      MainExit.configErrorApiKey ∨
     (main apiKeyPlaceholder "https://docs.google.com/spreadsheets/d/x"
        { authOk := true, fetchOutcome := FetchOutcome.transportError, writeOk := true }).2 =
      MainExit.configErrorSheetUrl) :=
  c8_placeholder_blocks_run apiKeyPlaceholder "https://docs.google.com/spreadsheets/d/x"
    { authOk := true, fetchOutcome := FetchOutcome.transportError, writeOk := true }
    (Or.inl rfl)

/-- Claim C9 (confirmed): a 200 response whose JSON dict body has no
`data` key makes `fetch_parks_data` return the empty list (neither `None`
nor an error), and `main` then stops at its empty-result guard — after the
auth and fetch calls, with no write call. -/
theorem c9_missing_data_key_is_empty_result (fields : List (String × JsonVal))
    (apiKey sheetUrl : String) (w : World)
    (hk : apiKey ≠ apiKeyPlaceholder) (hs : sheetUrl ≠ sheetUrlPlaceholder)
    (hauth : w.authOk = true)
    (hfetch : w.fetchOutcome =
      FetchOutcome.response { status := 200, body := JsonVal.obj fields })
    (hdata : fields.lookup "data" = none) :
    fetch_parks_data w.fetchOutcome = Except.ok (some (JsonVal.arr [])) ∧
    main apiKey sheetUrl w = ([Step.authCall, Step.fetchCall], MainExit.noData) := by
  have hf : fetch_parks_data w.fetchOutcome = Except.ok (some (JsonVal.arr [])) := by
    rw [hfetch]
    simp [fetch_parks_data, pyGet, hdata]
  refine ⟨hf, ?_⟩
  simp [main, hk, hs, hauth, hf, pyLen]

/-- Witness for C9: a concrete run with a 200 response whose body is the
dict `{}` ends at the empty-result guard. -/
theorem c9_witness :
    fetch_parks_data (FetchOutcome.response { status := 200, body := JsonVal.obj [] }) =
      Except.ok (some (JsonVal.arr [])) ∧
    main "real-key" "https://docs.google.com/spreadsheets/d/y"
      { authOk := true,
        fetchOutcome := FetchOutcome.response { status := 200, body := JsonVal.obj [] },
        writeOk := true } =
      ([Step.authCall, Step.fetchCall], MainExit.noData) :=
  c9_missing_data_key_is_empty_result [] "real-key" "https://docs.google.com/spreadsheets/d/y"
    { authOk := true,
      fetchOutcome := FetchOutcome.response { status := 200, body := JsonVal.obj [] },
      writeOk := true }
    (by decide) (by decide) rfl rfl rfl

/-- Claim C10 (confirmed): a mapping that stores `null` under a source field
key yields `null` in that cell — `dict.get` substitutes the `"N/A"` default
only when the key is entirely absent. -/
theorem c10_null_value_not_defaulted (parks : List JsonVal) (df : DataFrame)
    (j i : Nat) (fields : List (String × JsonVal)) (key : String)
    (hok : process_parks_data parks = Except.ok df)
    (hj : parks.get? j = some (JsonVal.obj fields))
    (hkey : sourceKeys.get? i = some key)
    (hnull : fields.lookup key = some JsonVal.null) :
    (df.rows.get? j).bind (fun row => row.get? i) = some JsonVal.null := by
  rw [processed_value parks df j i fields key hok hj hkey]
  simp [pyGet, hnull]

/-- Witness for C10: the record `{fullName: "P", states: null}` puts `null`,
not `"N/A"`, in the States column. -/
theorem c10_witness :
    ((mkDataFrame [parkInfoFields
        [("fullName", JsonVal.str "P"), ("states", JsonVal.null)]]).rows.get? 0).bind
      (fun row => row.get? 1) = some JsonVal.null :=
  c10_null_value_not_defaulted
    [JsonVal.obj [("fullName", JsonVal.str "P"), ("states", JsonVal.null)]]
    (mkDataFrame [parkInfoFields
        [("fullName", JsonVal.str "P"), ("states", JsonVal.null)]]) 0 1
    [("fullName", JsonVal.str "P"), ("states", JsonVal.null)] "states" rfl rfl rfl rfl

end NPS
